import Mathlib

/-
Formal model of the asynchronous job-ticket system: the job entity
(domain/job.py, shared by svc-api and svc-worker), the submission service
(svc-api job_service.py), the processing worker (svc-worker
job_processor.py) and the dead-letter finalizer (lambda dlq-handler
handler.py), shallowly embedded from the Python sources.  Each operation is
modelled as a pure function returning the list of external calls it makes
(its effect trace) together with its result; collaborator failures are
injected through explicit oracle parameters mirroring the exceptions the
source catches.
-/

set_option maxHeartbeats 1000000

namespace AsyncJobTicket

/-- The five job states of the `JobStatus` str-enum in domain/job.py. -/
inductive JobStatus where
  | PENDING
  | PROCESSING
  | SUCCEEDED
  | FAILED
  | FAILED_FINAL
deriving Repr, DecidableEq

open JobStatus

/-- The `.value` string of the str-enum member. -/
def statusValue : JobStatus → String
  | .PENDING => "PENDING"
  | .PROCESSING => "PROCESSING"
  | .SUCCEEDED => "SUCCEEDED"
  | .FAILED => "FAILED"
  | .FAILED_FINAL => "FAILED_FINAL"

/-- The enum constructor JobStatus(s): succeeds on the five member values,
raises ValueError (modelled as none) otherwise. -/
def statusOfString (s : String) : Option JobStatus :=
  if s = "PENDING" then some .PENDING
  else if s = "PROCESSING" then some .PROCESSING
  else if s = "SUCCEEDED" then some .SUCCEEDED
  else if s = "FAILED" then some .FAILED
  else if s = "FAILED_FINAL" then some .FAILED_FINAL
  else none

/-- Opaque key/value payload (params, metadata, result dictionaries).  The
values are opaque to the core, so they are modelled as strings. -/
abbrev Dict := List (String × String)

/-- A timezone-aware UTC datetime, modelled by its integral timestamp.  The
Python stdlib pair isoformat/fromisoformat used by to_dict/from_dict is a
bijection on aware datetimes (external library behaviour, not repository
code), so the ISO-string coding is modelled as the identity coding and the
persisted field carries the datetime value itself. -/
abbrev DateTime := Int

/-- The Job entity after `__init__` (domain/job.py).  `__init__` normalises
`metadata or` empty and defaults the timestamps, so in every constructed
object `metadata` is a dict (possibly empty) and both timestamps are set;
the structure states exactly that post-`__init__` shape. -/
structure Job where
  job_id : String
  status : JobStatus
  job_type : String
  priority : String
  params : Dict
  metadata : Dict
  idempotency_key : Option String
  trace_id : Option String
  payload_hash : Option String
  created_at : DateTime
  updated_at : DateTime
  attempts : Int
  result : Option Dict
  error : Option String
  expires_at : Option Int
deriving Repr, DecidableEq

/-- The flat DynamoDB item produced by `Job.to_dict` and consumed by
`Job.from_dict`: each field is `some v` when the key is present with a
non-null value and `none` when the key is absent (for `expiresAt`, which
`to_dict` always writes but possibly as null, presence-with-null and
absence are identified, exactly as `dict.get` collapses them). -/
structure JobDict where
  jobId : Option String
  status : Option String
  jobType : Option String
  priority : Option String
  params : Option Dict
  createdAt : Option DateTime
  updatedAt : Option DateTime
  attempts : Option Int
  expiresAt : Option Int
  metadata : Option Dict
  idempotencyKey : Option String
  traceId : Option String
  payloadHash : Option String
  result : Option Dict
  error : Option String
deriving Repr, DecidableEq

/-- `Job.to_dict` (domain/job.py): always writes jobId, status, jobType,
priority, params, createdAt, updatedAt, attempts, expiresAt; writes
metadata only when non-empty, and the remaining optional fields only when
not None. -/
def Job.to_dict (j : Job) : JobDict :=
  { jobId := some j.job_id
    status := some (statusValue j.status)
    jobType := some j.job_type
    priority := some j.priority
    params := some j.params
    createdAt := some j.created_at
    updatedAt := some j.updated_at
    attempts := some j.attempts
    expiresAt := j.expires_at
    metadata := if j.metadata = [] then none else some j.metadata
    idempotencyKey := j.idempotency_key
    traceId := j.trace_id
    payloadHash := j.payload_hash
    result := j.result
    error := j.error }

/-- `Job.from_dict` (domain/job.py): requires jobId and a valid status
(KeyError/ValueError modelled as none), defaults jobType to the empty
string, priority to normal, params/metadata to empty, attempts to 0, and
missing timestamps to the current time (threaded in as `now`). -/
def Job.from_dict (now : DateTime) (d : JobDict) : Option Job :=
  match d.jobId with
  | none => none
  | some jid =>
    match d.status with
    | none => none
    | some sstr =>
      match statusOfString sstr with
      | none => none
      | some st =>
        some
          { job_id := jid
            status := st
            job_type := d.jobType.getD ""
            priority := d.priority.getD "normal"
            params := d.params.getD []
            metadata := d.metadata.getD []
            idempotency_key := d.idempotencyKey
            trace_id := d.traceId
            payload_hash := d.payloadHash
            created_at := d.createdAt.getD now
            updated_at := d.updatedAt.getD now
            attempts := d.attempts.getD 0
            result := d.result
            error := d.error
            expires_at := d.expiresAt }

/-- The SQS message body the submission service serialises: a JSON object
with keys jobId, payloadHash, traceId (job_service.py, both create and
retry paths). -/
structure MessageBody where
  jobId : String
  payloadHash : Option String
  traceId : String
deriving Repr, DecidableEq

/-- The SQS message attributes: jobId, traceId, jobType. -/
structure MessageAttrs where
  jobId : String
  traceId : String
  jobType : String
deriving Repr, DecidableEq

/-- One external call made by the submission service (job_service.py).
`ok` records whether the call succeeded or raised (the raise is injected by
the failure oracles below); calls without an `ok` flag are not given a
failure injection because no claim depends on their failing. -/
inductive ApiEff where
  | getByIdempotencyKey (key : String)
  | putJob (job : Job) (ok : Bool)
  | getParameter (name : String)
  | sendMessage (queueUrl : String) (body : MessageBody) (attrs : MessageAttrs) (ok : Bool)
  | updateJobStatus (jobId : String) (status : JobStatus) (error : Option String) (ok : Bool)
  | putMetric (name : String)
  | getJob (jobId : String)
deriving Repr, DecidableEq

/-- The error taxonomy of the service layer.  The source raises ValueError
for caller faults and RuntimeError for dependency faults; the distinct
messages distinguish the three ValueError cases, which the model names
directly (validation, not-found, invalid-state), matching the taxonomy the
routes map to 400/404/500. -/
inductive ApiError where
  | validationError (msg : String)
  | notFoundError (jobId : String)
  | invalidStateError (jobId : String) (current : JobStatus)
  | dependencyError (cause : String)
deriving Repr, DecidableEq

/-- Values generated during one create_job call: the uuid4 job id, the
uuid4 trace id used when the caller supplies none, the current time, and
the sha256 hex digest of the canonical (type, priority, params) payload
(the digest is computed by the external hashlib, so its value is threaded
in rather than recomputed). -/
structure Gen where
  gen_job_id : String
  gen_trace_id : String
  now : DateTime
  payload_hash : String
deriving Repr, DecidableEq

/-- `Job.create` (domain/job.py): new job with the generated id, status
PENDING, attempts 0, expiry 24 hours (86400 seconds) after creation. -/
def Job.create (g : Gen) (job_type priority : String) (params : Dict)
    (metadata : Option Dict) (idempotency_key trace_id : Option String) : Job :=
  { job_id := g.gen_job_id
    status := .PENDING
    job_type := job_type
    priority := priority
    params := params
    metadata := metadata.getD []
    idempotency_key := idempotency_key
    trace_id := trace_id
    payload_hash := some g.payload_hash
    created_at := g.now
    updated_at := g.now
    attempts := 0
    result := none
    error := none
    expires_at := some (g.now + 86400) }

/-- Collaborator state and injected failures for one create_job call:
the storage contents the idempotency lookup sees, the queue url returned by
the parameter store, and whether put_job, send_message and the compensating
update_job_status raise (the attached string is the exception text). -/
structure CreateDeps where
  store : List Job
  queue_url : String
  put_fails : Option String
  publish_fails : Option String
  compensation_fails : Bool
deriving Repr, DecidableEq

/-- The GSI query get_job_by_idempotency_key (infra/dynamodb.py): first
stored job whose idempotencyKey equals the key. -/
def lookup_by_idempotency_key (store : List Job) (key : String) : Option Job :=
  store.find? (fun j => j.idempotency_key = some key)

/-- Message body for a job and trace id (json.dumps of jobId, payloadHash,
traceId). -/
def msgBody (job : Job) (trace_id : String) : MessageBody :=
  { jobId := job.job_id, payloadHash := job.payload_hash, traceId := trace_id }

/-- Message attributes for a job and trace id. -/
def msgAttrs (job : Job) (trace_id : String) : MessageAttrs :=
  { jobId := job.job_id, traceId := trace_id, jobType := job.job_type }

/-- The except-block of create_job (job_service.py lines 127 to 146):
log, attempt one compensating update to FAILED carrying the exception text
(whose own failure is swallowed), emit the JobsCreatedFailed metric, and
re-raise as RuntimeError (the DependencyError of the taxonomy) holding the
original exception. -/
def create_compensate (deps : CreateDeps) (job : Job) (err : String) :
    List ApiEff × Except ApiError Job :=
  ([ApiEff.updateJobStatus job.job_id .FAILED (some err) (!deps.compensation_fails),
    ApiEff.putMetric "JobsCreatedFailed"],
   Except.error (.dependencyError err))

/-- The try-block of create_job (job_service.py lines 85 to 146): write the
job, resolve the queue url, publish the message, emit metrics, return the
job; any raise inside the block falls to `create_compensate`. -/
def create_write_publish (deps : CreateDeps) (job : Job) (trace_id : String) :
    List ApiEff × Except ApiError Job :=
  match deps.put_fails with
  | some err =>
    let (effs, res) := create_compensate deps job err
    (ApiEff.putJob job false :: effs, res)
  | none =>
    match deps.publish_fails with
    | some err =>
      let (effs, res) := create_compensate deps job err
      (ApiEff.putJob job true :: ApiEff.getParameter "sqs/queue-url" ::
        ApiEff.sendMessage deps.queue_url (msgBody job trace_id) (msgAttrs job trace_id) false ::
        effs, res)
    | none =>
      ([ApiEff.putJob job true, ApiEff.getParameter "sqs/queue-url",
        ApiEff.sendMessage deps.queue_url (msgBody job trace_id) (msgAttrs job trace_id) true,
        ApiEff.putMetric "JobsCreated", ApiEff.putMetric "SQSPublishLatency"],
       Except.ok job)

/-- `JobService.create_job` (job_service.py lines 43 to 146): default the
trace id, reject empty params, on a truthy idempotency key look the key up
and return a hit verbatim, otherwise build the job and run the
write-then-publish block with compensation.  Note the idempotency guard is
the Python truthiness test on the key, so both a missing key and an empty
string key skip the lookup. -/
def create_job (deps : CreateDeps) (g : Gen) (job_type priority : String)
    (params : Dict) (metadata : Option Dict) (idempotency_key trace_id : Option String) :
    List ApiEff × Except ApiError Job :=
  let tid := trace_id.getD g.gen_trace_id
  if params = [] then
    ([], Except.error (.validationError
      "params cannot be empty - at least one parameter is required"))
  else
    let job := Job.create g job_type priority params metadata idempotency_key (some tid)
    match idempotency_key with
    | some key =>
      if key = "" then
        create_write_publish deps job tid
      else
        match lookup_by_idempotency_key deps.store key with
        | some existing => ([ApiEff.getByIdempotencyKey key], Except.ok existing)
        | none =>
          let (effs, res) := create_write_publish deps job tid
          (ApiEff.getByIdempotencyKey key :: effs, res)
    | none => create_write_publish deps job tid

/-- The storage read get_job (infra/dynamodb.py): first stored job with the
id. -/
def get_job_in_store (store : List Job) (job_id : String) : Option Job :=
  store.find? (fun j => j.job_id = job_id)

/-- Collaborator state for one retry_job call. -/
structure RetryDeps where
  store : List Job
  queue_url : String
  publish_fails : Option String
deriving Repr, DecidableEq

/-- `JobService.retry_job` (job_service.py lines 152 to 194): default the
trace id, fail when the job is absent, fail when its status is not
PENDING, otherwise re-publish the (jobId, payloadHash, traceId) message;
the only storage interaction is the initial read. -/
def retry_job (deps : RetryDeps) (gen_trace_id : String) (job_id : String)
    (trace_id : Option String) : List ApiEff × Except ApiError Job :=
  let tid := trace_id.getD gen_trace_id
  match get_job_in_store deps.store job_id with
  | none => ([ApiEff.getJob job_id], Except.error (.notFoundError job_id))
  | some job =>
    if job.status ≠ JobStatus.PENDING then
      ([ApiEff.getJob job_id], Except.error (.invalidStateError job_id job.status))
    else
      match deps.publish_fails with
      | some err =>
        ([ApiEff.getJob job_id, ApiEff.getParameter "sqs/queue-url",
          ApiEff.sendMessage deps.queue_url (msgBody job tid) (msgAttrs job tid) false],
         Except.error (.dependencyError err))
      | none =>
        ([ApiEff.getJob job_id, ApiEff.getParameter "sqs/queue-url",
          ApiEff.sendMessage deps.queue_url (msgBody job tid) (msgAttrs job tid) true],
         Except.ok job)

/-- The fixed allow-list of job types in the JobRequest schema validator
(api/schemas.py). -/
def allowed_types : List String := ["process_document", "generate_report", "transform_data"]

/-- The JobRequest field validator for type (api/schemas.py). -/
def validate_type (t : String) : Bool := allowed_types.contains t

/-- The allowed priority literals of the JobRequest schema. -/
def allowed_priorities : List String := ["low", "normal", "high"]

/-- The API submission path (api/routes.py create_job endpoint): pydantic
validates the request schema - type against the allow-list, priority
against the literal set - and only then invokes the service create_job;
a schema rejection becomes a 400 ValidationError with no service call. -/
def submit (deps : CreateDeps) (g : Gen) (job_type priority : String)
    (params : Dict) (metadata : Option Dict) (idempotency_key trace_id : Option String) :
    List ApiEff × Except ApiError Job :=
  if validate_type job_type = false then
    ([], Except.error (.validationError
      "Job type must be one of: process_document, generate_report, transform_data"))
  else if allowed_priorities.contains priority = false then
    ([], Except.error (.validationError "priority must be low, normal or high"))
  else
    create_job deps g job_type priority params metadata idempotency_key trace_id

/-- Whether an effect writes to storage (put_job or update_job_status). -/
def ApiEff.isStorageWrite : ApiEff → Bool
  | .putJob _ _ => true
  | .updateJobStatus _ _ _ _ => true
  | _ => false

/-- Whether an effect is an update_job_status call. -/
def ApiEff.isStatusUpdate : ApiEff → Bool
  | .updateJobStatus _ _ _ _ => true
  | _ => false

/-- Whether an effect is a send_message call. -/
def ApiEff.isPublish : ApiEff → Bool
  | .sendMessage _ _ _ _ => true
  | _ => false

/-- JobProcessor configuration (job_processor.py constructor).  Backoff
parameters are modelled over exact rationals; the float arithmetic the
source performs is exact at every value the claims evaluate. -/
structure WorkerCfg where
  max_retries : Nat
  initial_backoff : ℚ
  max_backoff : ℚ
  backoff_multiplier : ℚ
deriving Repr, DecidableEq

/-- The constructor defaults: max_retries 3, initial_backoff 1, max_backoff
30, backoff_multiplier 2. -/
def defaultCfg : WorkerCfg :=
  { max_retries := 3, initial_backoff := 1, max_backoff := 30, backoff_multiplier := 2 }

/-- The transient indicators of `_is_retryable_error` (job_processor.py). -/
def retryable_indicators : List String :=
  ["500", "503", "504", "throttl", "timeout", "connection", "network"]

/-- Substring containment (the Python `in` test on strings), by scanning
the haystack character list. -/
def containsSub (needle : List Char) : List Char → Bool
  | [] => needle.isEmpty
  | c :: t => needle.isPrefixOf (c :: t) || containsSub needle t

/-- ASCII lower-casing of one character (the transient indicators are all
ASCII, so the Python str.lower call is modelled on ASCII letters). -/
def lowerChar (c : Char) : Char :=
  if c.isUpper then Char.ofNat (c.toNat + 32) else c

/-- Lower-casing of a character list. -/
def lowerChars (s : List Char) : List Char := s.map lowerChar

/-- `_is_retryable_error`: the lower-cased exception text contains one of
the transient indicators as a substring. -/
def is_retryable_error (msg : String) : Bool :=
  retryable_indicators.any (fun ind => containsSub ind.toList (lowerChars msg.toList))

/-- `_calculate_backoff` (job_processor.py lines 52 to 55). -/
def calculate_backoff (cfg : WorkerCfg) (attempt : Nat) : ℚ :=
  min (cfg.initial_backoff * cfg.backoff_multiplier ^ attempt) cfg.max_backoff

/-- One external call made by the processing worker.  Storage and queue
calls inside the retry loop are modelled as succeeding; the injected
failure source is the work execution itself (the `work` oracle), which is
what the except-branch of the loop classifies. -/
inductive WEff where
  | updateJob (job_id : String) (status : JobStatus) (result : Option Dict)
      (attempts : Option Int) (ok : Bool)
  | deleteMessage (queue_url : String) (receipt_handle : String)
  | workCall (attempt : Nat)
  | sleep (seconds : ℚ)
  | putMetric (name : String)
deriving Repr, DecidableEq

/-- The retry loop of process_job (job_processor.py lines 106 to 181),
entered with the loop index `attempt` and the number of remaining
iterations.  On work success: update to SUCCEEDED with the result and the
final attempt count, acknowledge, emit metrics, return True.  On a
non-retryable error, or a retryable error on the last iteration: emit the
failure metric and return False without acknowledging.  On a retryable
error with iterations remaining: sleep the exponential backoff and
continue. -/
def run_attempts (cfg : WorkerCfg) (work : Nat → Except String Dict) (job : Job)
    (queue_url receipt_handle : String) : Nat → Nat → List WEff × Bool
  | _, 0 => ([], false)
  | attempt, remaining + 1 =>
    match work attempt with
    | Except.ok result =>
      ([WEff.workCall attempt,
        WEff.updateJob job.job_id .SUCCEEDED (some result)
          (some (job.attempts + 1 + (attempt : Int))) true,
        WEff.deleteMessage queue_url receipt_handle,
        WEff.putMetric "JobsProcessed", WEff.putMetric "JobProcessingDuration"],
       true)
    | Except.error e =>
      if is_retryable_error e = false then
        ([WEff.workCall attempt, WEff.putMetric "JobsProcessedFailed"], false)
      else if attempt < cfg.max_retries - 1 then
        let (effs, r) :=
          run_attempts cfg work job queue_url receipt_handle (attempt + 1) remaining
        (WEff.workCall attempt :: WEff.sleep (calculate_backoff cfg attempt) :: effs, r)
      else
        ([WEff.workCall attempt, WEff.putMetric "JobsProcessedFailed"], false)

/-- `JobProcessor.process_job` (job_processor.py lines 57 to 181).  The
idempotency gate: a job already SUCCEEDED or FAILED_FINAL is acknowledged
(the delete call is issued; its own failure is swallowed) and True is
returned with no work executed and no storage write.  Otherwise the job is
updated to PROCESSING with attempts incremented (when that update raises,
injected through `update_processing_fails`, the call returns False), and
the retry loop runs. -/
def process_job (cfg : WorkerCfg) (update_processing_fails : Bool)
    (work : Nat → Except String Dict) (job : Job)
    (receipt_handle queue_url : String) : List WEff × Bool :=
  if job.status = JobStatus.SUCCEEDED ∨ job.status = JobStatus.FAILED_FINAL then
    ([WEff.deleteMessage queue_url receipt_handle], true)
  else if update_processing_fails then
    ([WEff.updateJob job.job_id .PROCESSING none (some (job.attempts + 1)) false], false)
  else
    let (effs, r) := run_attempts cfg work job queue_url receipt_handle 0 cfg.max_retries
    (WEff.updateJob job.job_id .PROCESSING none (some (job.attempts + 1)) true :: effs, r)

/-- Whether a worker effect is an update_job call. -/
def WEff.isUpdate : WEff → Bool
  | .updateJob _ _ _ _ _ => true
  | _ => false

/-- Whether a worker effect is a delete_message (acknowledge) call. -/
def WEff.isDelete : WEff → Bool
  | .deleteMessage _ _ => true
  | _ => false

/-- Whether a worker effect is a work execution. -/
def WEff.isWorkCall : WEff → Bool
  | .workCall _ => true
  | _ => false

/-- One parsed dead-letter message body as the DLQ handler sees it
(handler.py): either json.loads raised, or it yielded an object whose
jobId and error keys may each be absent. -/
inductive DlqBody where
  | unparseable
  | parsed (jobId : Option String) (error : Option String)
deriving Repr, DecidableEq

/-- A storage call of the DLQ handler: the unconditional update_item that
sets status FAILED_FINAL and the error text; `ok` is false when the call
raised a ClientError (injected through the oracle). -/
inductive DEff where
  | updateItem (job_id : String) (error : String) (ok : Bool)
deriving Repr, DecidableEq

/-- One iteration of the record loop in the DLQ handler (handler.py lines
33 to 84): drop unparseable bodies and bodies with a falsy jobId as failed;
otherwise issue the unconditional FAILED_FINAL update with the carried
error text or the default, counting it processed when the update succeeds
and failed when it raises.  The boolean is True for the processed count. -/
def dlq_record_step (update_fails : String → Bool) (body : DlqBody) :
    List DEff × Bool :=
  match body with
  | .unparseable => ([], false)
  | .parsed jobId err =>
    match jobId with
    | none => ([], false)
    | some jid =>
      if jid = "" then ([], false)
      else
        let msg := err.getD "Job failed after max retries"
        if update_fails jid then ([DEff.updateItem jid msg false], false)
        else ([DEff.updateItem jid msg true], true)

/-- The DLQ handler (handler.py): fold the record loop over the event
records, returning the effect trace and the processed and failed counts of
the 200 response body. -/
def dlq_handler (update_fails : String → Bool) : List DlqBody → List DEff × Nat × Nat
  | [] => ([], 0, 0)
  | r :: rest =>
    let (effs, ok) := dlq_record_step update_fails r
    let (effsRest, p, f) := dlq_handler update_fails rest
    (effs ++ effsRest, (if ok then 1 else 0) + p, (if ok then 0 else 1) + f)

/-- The stored status of each job record, for replaying an effect trace
against storage.  DynamoDB update_item upserts: an update on an absent id
creates the record. -/
abbrev Store := List (String × JobStatus)

/-- Stored status of a record. -/
def getStatus (s : Store) (id : String) : Option JobStatus :=
  (s.find? (fun p => p.1 = id)).map Prod.snd

/-- Overwrite (or upsert) the stored status of a record. -/
def setStatus : Store → String → JobStatus → Store
  | [], id, st => [(id, st)]
  | p :: t, id, st => if p.1 = id then (id, st) :: t else p :: setStatus t id st

/-- Replay a submission-service effect trace against a store, collecting
every stored status transition it performs: a successful put_item on an
existing id overwrites it, a successful update_item rewrites the status
of an existing id (and upserts an absent one, which creates rather than
transitions).  Failed calls write nothing. -/
def apiTransitions (s : Store) : List ApiEff → List (JobStatus × JobStatus)
  | [] => []
  | e :: rest =>
    match e with
    | ApiEff.putJob job ok =>
      if ok then
        match getStatus s job.job_id with
        | some old =>
          (old, job.status) :: apiTransitions (setStatus s job.job_id job.status) rest
        | none => apiTransitions (setStatus s job.job_id job.status) rest
      else apiTransitions s rest
    | ApiEff.updateJobStatus id st _ ok =>
      if ok then
        match getStatus s id with
        | some old => (old, st) :: apiTransitions (setStatus s id st) rest
        | none => apiTransitions (setStatus s id st) rest
      else apiTransitions s rest
    | _ => apiTransitions s rest

/-- Replay a worker effect trace against a store, collecting status
transitions of successful update_job calls. -/
def workerTransitions (s : Store) : List WEff → List (JobStatus × JobStatus)
  | [] => []
  | e :: rest =>
    match e with
    | WEff.updateJob id st _ _ ok =>
      if ok then
        match getStatus s id with
        | some old => (old, st) :: workerTransitions (setStatus s id st) rest
        | none => workerTransitions (setStatus s id st) rest
      else workerTransitions s rest
    | _ => workerTransitions s rest

/-- Replay a DLQ-handler effect trace against a store, collecting status
transitions of successful update_item calls. -/
def dlqTransitions (s : Store) : List DEff → List (JobStatus × JobStatus)
  | [] => []
  | DEff.updateItem id _ ok :: rest =>
    if ok then
      match getStatus s id with
      | some old => (old, .FAILED_FINAL) :: dlqTransitions (setStatus s id .FAILED_FINAL) rest
      | none => dlqTransitions (setStatus s id .FAILED_FINAL) rest
    else dlqTransitions s rest

/-- The status edges the specification allows (spec section 4.1 and the
first testable property of section 8). -/
def claimedEdges : List (JobStatus × JobStatus) :=
  [(.PENDING, .PROCESSING), (.PROCESSING, .SUCCEEDED), (.PROCESSING, .FAILED),
   (.FAILED, .FAILED_FINAL), (.PENDING, .PENDING)]

/-- The status edges the code actually performs: the worker moves any
non-terminal status (PENDING, PROCESSING or FAILED) to PROCESSING and then
PROCESSING to SUCCEEDED; create_job compensation moves the freshly written
PENDING job to FAILED; the DLQ handler moves any status, terminal ones
included, to FAILED_FINAL; retry writes no status. -/
def amendedEdges : List (JobStatus × JobStatus) :=
  [(.PENDING, .PROCESSING), (.PROCESSING, .PROCESSING), (.FAILED, .PROCESSING),
   (.PROCESSING, .SUCCEEDED),
   (.PENDING, .FAILED),
   (.PENDING, .FAILED_FINAL), (.PROCESSING, .FAILED_FINAL), (.FAILED, .FAILED_FINAL),
   (.SUCCEEDED, .FAILED_FINAL), (.FAILED_FINAL, .FAILED_FINAL)]

/-- A sample job with the given status, for concrete instantiations. -/
def sampleJob (st : JobStatus) : Job :=
  { job_id := "job-1"
    status := st
    job_type := "process_document"
    priority := "normal"
    params := [("source", "s3://bucket/key")]
    metadata := []
    idempotency_key := none
    trace_id := some "trace-1"
    payload_hash := some "hash-1"
    created_at := 0
    updated_at := 0
    attempts := 0
    result := none
    error := none
    expires_at := some 86400 }

theorem statusOfString_statusValue (st : JobStatus) :
    statusOfString (statusValue st) = some st := by
  cases st <;> rfl

/-- C10: serialization round-trip.  For every constructed Job value, over
any combination of present and absent optional fields, from_dict applied to
to_dict reconstructs the job exactly; empty metadata round-trips to the
empty map (the normalisation the constructor performs) and the timestamps
are preserved exactly through the encoding (for any ambient current time
`now` the decoder would fall back to). -/
theorem to_dict_from_dict_roundtrip (now : DateTime) (j : Job) :
    Job.from_dict now j.to_dict = some j := by
  cases j with
  | mk job_id status job_type priority params metadata idempotency_key
      trace_id payload_hash created_at updated_at attempts result error
      expires_at =>
    simp only [Job.to_dict, Job.from_dict, statusOfString_statusValue]
    by_cases hm : metadata = ([] : Dict)
    · simp [hm]
    · simp [hm]

/-- C9: a create_job call with empty params fails with the ValidationError
immediately: the effect trace is empty, so no storage write, no queue
publish and no idempotency lookup happened before the failure, whatever
the other arguments are - including an idempotency key matching a stored
job. -/
theorem empty_params_rejected_first (deps : CreateDeps) (g : Gen)
    (job_type priority : String) (metadata : Option Dict)
    (idempotency_key trace_id : Option String) :
    create_job deps g job_type priority [] metadata idempotency_key trace_id =
      ([], Except.error (.validationError
        "params cannot be empty - at least one parameter is required")) := by
  rfl

/-- C5: the backoff function is exactly
min (initialBackoff * multiplier ^ attempt) maxBackoff for every
configuration and attempt index, and at the constructor defaults it
evaluates to 1, 2, 4, 8 on attempts 0 to 3 and is at most 30 at attempt
10 (it is exactly 30 there). -/
theorem backoff_formula_and_values :
    (∀ (cfg : WorkerCfg) (attempt : Nat),
      calculate_backoff cfg attempt =
        min (cfg.initial_backoff * cfg.backoff_multiplier ^ attempt) cfg.max_backoff)
    ∧ calculate_backoff defaultCfg 0 = 1
    ∧ calculate_backoff defaultCfg 1 = 2
    ∧ calculate_backoff defaultCfg 2 = 4
    ∧ calculate_backoff defaultCfg 3 = 8
    ∧ calculate_backoff defaultCfg 10 ≤ 30 := by
  refine ⟨fun _ _ => rfl, ?_, ?_, ?_, ?_, ?_⟩ <;>
    simp [calculate_backoff, defaultCfg, min_def] <;> norm_num

/-- C2: the idempotency gate.  A process_job call on a job whose stored
status is SUCCEEDED or FAILED_FINAL produces exactly one effect, the
delete_message acknowledge, and returns True (the Success outcome): no
work is invoked and nothing is written to storage, for every configuration
and work behaviour. -/
theorem terminal_job_gate (cfg : WorkerCfg) (upf : Bool)
    (work : Nat → Except String Dict) (job : Job) (rh qurl : String)
    (h : job.status = JobStatus.SUCCEEDED ∨ job.status = JobStatus.FAILED_FINAL) :
    process_job cfg upf work job rh qurl = ([WEff.deleteMessage qurl rh], true) := by
  unfold process_job
  rw [if_pos h]

/-- Witness for the gate theorem: a concrete SUCCEEDED job is acknowledged
and skipped even though the work oracle would fail. -/
theorem terminal_job_gate_witness :
    process_job defaultCfg false (fun _ => Except.error "boom") (sampleJob .SUCCEEDED)
        "rh-1" "qurl-1" = ([WEff.deleteMessage "qurl-1" "rh-1"], true) :=
  terminal_job_gate defaultCfg false (fun _ => Except.error "boom") (sampleJob .SUCCEEDED)
    "rh-1" "qurl-1" (Or.inl rfl)

/-- C6: failure handling in process_job at the constructor defaults
(three in-process attempts, backoff 1 then 2).  On a non-retryable first
error, and likewise when all three attempts fail retryably with the
backoff sleeps taken between consecutive attempts, the full effect trace
contains no delete_message (the message is never acknowledged), the only
status write is the initial update to PROCESSING (so the stored job is
left at PROCESSING), and the returned outcome is False, not Success. -/
theorem failure_leaves_processing_unacked :
    (∀ (work : Nat → Except String Dict) (job : Job) (rh qurl : String) (e : String),
      ¬ (job.status = JobStatus.SUCCEEDED ∨ job.status = JobStatus.FAILED_FINAL) →
      work 0 = Except.error e → is_retryable_error e = false →
      process_job defaultCfg false work job rh qurl =
        ([WEff.updateJob job.job_id .PROCESSING none (some (job.attempts + 1)) true,
          WEff.workCall 0, WEff.putMetric "JobsProcessedFailed"], false))
    ∧ (∀ (work : Nat → Except String Dict) (errs : Nat → String) (job : Job) (rh qurl : String),
      ¬ (job.status = JobStatus.SUCCEEDED ∨ job.status = JobStatus.FAILED_FINAL) →
      (∀ i, i < 3 → work i = Except.error (errs i) ∧ is_retryable_error (errs i) = true) →
      process_job defaultCfg false work job rh qurl =
        ([WEff.updateJob job.job_id .PROCESSING none (some (job.attempts + 1)) true,
          WEff.workCall 0, WEff.sleep 1, WEff.workCall 1, WEff.sleep 2,
          WEff.workCall 2, WEff.putMetric "JobsProcessedFailed"], false)) := by
  constructor
  · intro work job rh qurl e h hw hr
    simp only [process_job, if_neg h]
    simp [defaultCfg, run_attempts, hw, hr]
  · intro work errs job rh qurl h hall
    have h0 := hall 0 (by norm_num)
    have h1 := hall 1 (by norm_num)
    have h2 := hall 2 (by norm_num)
    simp only [process_job, if_neg h]
    norm_num [defaultCfg, run_attempts, h0.1, h0.2, h1.1, h1.2, h2.1, h2.2,
      calculate_backoff, min_def]

/-- Witness for the failure-path theorem: the scenario of the spec - an
error containing the text 503 Service Unavailable on every attempt - at a
concrete PENDING job: sleeps of 1 and 2 seconds between the three
attempts, no acknowledge, outcome False, only the PROCESSING write. -/
theorem failure_leaves_processing_unacked_witness :
    process_job defaultCfg false (fun _ => Except.error "503 Service Unavailable")
        (sampleJob .PENDING) "rh-2" "qurl-2" =
      ([WEff.updateJob "job-1" .PROCESSING none (some 1) true,
        WEff.workCall 0, WEff.sleep 1, WEff.workCall 1, WEff.sleep 2,
        WEff.workCall 2, WEff.putMetric "JobsProcessedFailed"], false) := by
  have hr : is_retryable_error "503 Service Unavailable" = true := by decide
  exact failure_leaves_processing_unacked.2 (fun _ => Except.error "503 Service Unavailable")
    (fun _ => "503 Service Unavailable") (sampleJob .PENDING) "rh-2" "qurl-2"
    (by decide) (fun _ _ => ⟨rfl, hr⟩)

/-- C3: compensation.  Whenever the publish step fails after the storage
write succeeded (put_fails none, publish_fails err, on any path that
reaches the write - params non-empty and no idempotency hit), create_job
issues exactly one compensating update_job_status call, setting the stored
job to FAILED with the publish error text, and returns the DependencyError
carrying that original publish failure - whether or not the compensating
update itself fails (the conclusion holds for both values of
compensation_fails, which only shows up as the recorded outcome of the
attempted call). -/
theorem compensation_on_publish_failure
    (deps : CreateDeps) (g : Gen) (job_type priority : String) (params : Dict)
    (metadata : Option Dict) (idempotency_key trace_id : Option String) (err : String)
    (hparams : params ≠ [])
    (hidem : ∀ k, idempotency_key = some k →
      k = "" ∨ lookup_by_idempotency_key deps.store k = none)
    (hput : deps.put_fails = none) (hpub : deps.publish_fails = some err) :
    (create_job deps g job_type priority params metadata idempotency_key trace_id).2 =
        Except.error (.dependencyError err)
    ∧ (create_job deps g job_type priority params metadata idempotency_key
          trace_id).1.filter ApiEff.isStatusUpdate =
        [ApiEff.updateJobStatus g.gen_job_id .FAILED (some err) (!deps.compensation_fails)]
    ∧ ApiEff.putJob (Job.create g job_type priority params metadata idempotency_key
          (some (trace_id.getD g.gen_trace_id))) true
        ∈ (create_job deps g job_type priority params metadata idempotency_key trace_id).1 := by
  cases hik : idempotency_key with
  | none =>
    simp [create_job, hparams, create_write_publish, create_compensate, hput, hpub,
      ApiEff.isStatusUpdate, Job.create]
  | some k =>
    by_cases hk0 : k = ""
    · subst hk0
      simp [create_job, hparams, create_write_publish, create_compensate, hput, hpub,
        ApiEff.isStatusUpdate, Job.create]
    · rcases hidem k hik with hk | hlook
      · exact absurd hk hk0
      · simp [create_job, hparams, hk0, hlook, create_write_publish, create_compensate,
          hput, hpub, ApiEff.isStatusUpdate, Job.create]

/-- Witness for the compensation theorem, in the harder case: the
compensating update itself fails, and the caller still receives the
DependencyError with the original publish failure after exactly one
attempted compensating FAILED update. -/
theorem compensation_on_publish_failure_witness :
    ((create_job
        { store := [], queue_url := "qurl", put_fails := none,
          publish_fails := some "SQS down", compensation_fails := true }
        { gen_job_id := "job-new", gen_trace_id := "trace-new", now := 0,
          payload_hash := "hash-new" }
        "process_document" "normal" [("source", "s3://b/k")] none none none).2 =
      Except.error (.dependencyError "SQS down"))
    ∧ ((create_job
        { store := [], queue_url := "qurl", put_fails := none,
          publish_fails := some "SQS down", compensation_fails := true }
        { gen_job_id := "job-new", gen_trace_id := "trace-new", now := 0,
          payload_hash := "hash-new" }
        "process_document" "normal" [("source", "s3://b/k")] none none none).1.filter
        ApiEff.isStatusUpdate =
      [ApiEff.updateJobStatus "job-new" .FAILED (some "SQS down") false]) := by
  have h := compensation_on_publish_failure
    { store := [], queue_url := "qurl", put_fails := none,
      publish_fails := some "SQS down", compensation_fails := true }
    { gen_job_id := "job-new", gen_trace_id := "trace-new", now := 0,
      payload_hash := "hash-new" }
    "process_document" "normal" [("source", "s3://b/k")] none none none "SQS down"
    (by decide) (fun k hk => by cases hk) rfl rfl
  exact ⟨h.1, h.2.1⟩

/-- C4 (amended): idempotent submission for a provided non-empty key.
First part: when the key is non-null and non-empty and the index holds a
job for it, create_job performs exactly the lookup - returning the
existing job verbatim, with no storage write and no publish.  Second part:
a job stored with that key is found by a later lookup, so two sequential
submissions with the same non-empty key yield the same job id with one
write and one publish in total.  (The amendment over the claim: the key
must also be non-empty - the source guards the lookup with the Python
truthiness of the key, so the empty string, though non-null, skips
deduplication; see the counterexample.) -/
theorem idempotent_hit_amended :
    (∀ (deps : CreateDeps) (g : Gen) (job_type priority : String) (params : Dict)
        (metadata : Option Dict) (k : String) (trace_id : Option String) (existing : Job),
      params ≠ [] → k ≠ "" →
      lookup_by_idempotency_key deps.store k = some existing →
      create_job deps g job_type priority params metadata (some k) trace_id =
        ([ApiEff.getByIdempotencyKey k], Except.ok existing))
    ∧ (∀ (store : List Job) (j : Job) (k : String),
      lookup_by_idempotency_key store k = none → j.idempotency_key = some k →
      lookup_by_idempotency_key (store ++ [j]) k = some j) := by
  constructor
  · intro deps g job_type priority params metadata k trace_id existing hparams hk hfound
    simp [create_job, hparams, hk, hfound]
  · intro store j k hnone hk
    unfold lookup_by_idempotency_key at hnone ⊢
    rw [List.find?_append, hnone]
    simp [List.find?, hk]

/-- A job stored under idempotency key k1, for the C4 witness. -/
def existingK1Job : Job := { sampleJob .SUCCEEDED with job_id := "job-old", idempotency_key := some "k1" }

/-- Witness for the amended idempotency theorem: a resubmission with key
k1 returns the stored job verbatim with the lookup as its only effect. -/
theorem idempotent_hit_amended_witness :
    create_job
        { store := [existingK1Job], queue_url := "q", put_fails := none,
          publish_fails := none, compensation_fails := false }
        { gen_job_id := "job-2", gen_trace_id := "t2", now := 5, payload_hash := "h2" }
        "generate_report" "high" [("x", "y")] none (some "k1") none =
      ([ApiEff.getByIdempotencyKey "k1"], Except.ok existingK1Job) :=
  idempotent_hit_amended.1
    { store := [existingK1Job], queue_url := "q", put_fails := none,
      publish_fails := none, compensation_fails := false }
    { gen_job_id := "job-2", gen_trace_id := "t2", now := 5, payload_hash := "h2" }
    "generate_report" "high" [("x", "y")] none "k1" none existingK1Job
    (by decide) (by decide) (by decide)

/-- A job stored under the empty-string idempotency key, for the C4
counterexample. -/
def emptyKeyJob : Job := { sampleJob .PENDING with job_id := "job-old", idempotency_key := some "" }

/-- Counterexample to C4 as stated: the empty string is a non-null
idempotency key and the index holds a job for it, yet create_job skips the
lookup (Python truthiness), writes a brand-new job and publishes a new
message instead of returning the stored job verbatim. -/
theorem idempotent_hit_counterexample :
    lookup_by_idempotency_key [emptyKeyJob] "" = some emptyKeyJob
    ∧ (create_job
        { store := [emptyKeyJob], queue_url := "q", put_fails := none,
          publish_fails := none, compensation_fails := false }
        { gen_job_id := "job-new", gen_trace_id := "t", now := 0, payload_hash := "h" }
        "process_document" "normal" [("a", "b")] none (some "") none).2 =
      Except.ok (Job.create
        { gen_job_id := "job-new", gen_trace_id := "t", now := 0, payload_hash := "h" }
        "process_document" "normal" [("a", "b")] none (some "") (some "t"))
    ∧ Job.create
        { gen_job_id := "job-new", gen_trace_id := "t", now := 0, payload_hash := "h" }
        "process_document" "normal" [("a", "b")] none (some "") (some "t") ≠ emptyKeyJob
    ∧ (create_job
        { store := [emptyKeyJob], queue_url := "q", put_fails := none,
          publish_fails := none, compensation_fails := false }
        { gen_job_id := "job-new", gen_trace_id := "t", now := 0, payload_hash := "h" }
        "process_document" "normal" [("a", "b")] none (some "") none).1.filter
        ApiEff.isStorageWrite ≠ []
    ∧ (create_job
        { store := [emptyKeyJob], queue_url := "q", put_fails := none,
          publish_fails := none, compensation_fails := false }
        { gen_job_id := "job-new", gen_trace_id := "t", now := 0, payload_hash := "h" }
        "process_document" "normal" [("a", "b")] none (some "") none).1.countP
        ApiEff.isPublish = 1 := by
  refine ⟨rfl, rfl, ?_, ?_, rfl⟩ <;> decide

/-- C7 (amended): the allow-list check on the job type is performed by the
API request schema before the service is invoked: a submission through the
API whose type is outside the allow-list is rejected with the
ValidationError and an empty effect trace - no storage write and no queue
publish.  (The amendment over the claim: the check lives in the request
schema, not in create_job itself; a direct create_job call with an unknown
type writes and publishes - see the counterexample.) -/
theorem type_validation_amended (deps : CreateDeps) (g : Gen)
    (job_type priority : String) (params : Dict) (metadata : Option Dict)
    (idempotency_key trace_id : Option String)
    (h : validate_type job_type = false) :
    submit deps g job_type priority params metadata idempotency_key trace_id =
      ([], Except.error (.validationError
        "Job type must be one of: process_document, generate_report, transform_data")) := by
  simp [submit, h]

/-- Witness for the amended type-validation theorem at a concrete unknown
type. -/
theorem type_validation_amended_witness :
    submit
        { store := [], queue_url := "q", put_fails := none,
          publish_fails := none, compensation_fails := false }
        { gen_job_id := "job-7", gen_trace_id := "t7", now := 0, payload_hash := "h7" }
        "bogus_type" "normal" [("a", "b")] none none none =
      ([], Except.error (.validationError
        "Job type must be one of: process_document, generate_report, transform_data")) :=
  type_validation_amended
    { store := [], queue_url := "q", put_fails := none,
      publish_fails := none, compensation_fails := false }
    { gen_job_id := "job-7", gen_trace_id := "t7", now := 0, payload_hash := "h7" }
    "bogus_type" "normal" [("a", "b")] none none none (by decide)

/-- Counterexample to C7 as stated: a create_job call whose type is
outside the allow-list does not fail - it writes the job and publishes the
message and returns it successfully; the service method performs no type
check (the unknown type would only surface later, in the worker's
execution step). -/
theorem type_validation_counterexample :
    validate_type "bogus_type" = false
    ∧ (create_job
        { store := [], queue_url := "q", put_fails := none,
          publish_fails := none, compensation_fails := false }
        { gen_job_id := "job-7", gen_trace_id := "t7", now := 0, payload_hash := "h7" }
        "bogus_type" "normal" [("a", "b")] none none none).2 =
      Except.ok (Job.create
        { gen_job_id := "job-7", gen_trace_id := "t7", now := 0, payload_hash := "h7" }
        "bogus_type" "normal" [("a", "b")] none none (some "t7"))
    ∧ (create_job
        { store := [], queue_url := "q", put_fails := none,
          publish_fails := none, compensation_fails := false }
        { gen_job_id := "job-7", gen_trace_id := "t7", now := 0, payload_hash := "h7" }
        "bogus_type" "normal" [("a", "b")] none none none).1.filter
        ApiEff.isStorageWrite ≠ []
    ∧ (create_job
        { store := [], queue_url := "q", put_fails := none,
          publish_fails := none, compensation_fails := false }
        { gen_job_id := "job-7", gen_trace_id := "t7", now := 0, payload_hash := "h7" }
        "bogus_type" "normal" [("a", "b")] none none none).1.countP
        ApiEff.isPublish = 1 := by
  refine ⟨rfl, rfl, ?_, rfl⟩
  decide

/-- C8: the retry contract.  With no caller-supplied trace id (the
Retry(id) contract), retry_job fails with NotFoundError when the id is
absent, fails with InvalidStateError carrying the current status when the
job is not PENDING, and on success re-publishes the (jobId, payloadHash,
traceId) message carrying the freshly generated trace id; and in every
outcome - those three and a failed publish alike, with any trace argument -
the trace contains no storage write, so stored job state is unchanged. -/
theorem retry_contract :
    (∀ (deps : RetryDeps) (gtid jid : String),
      get_job_in_store deps.store jid = none →
      retry_job deps gtid jid none =
        ([ApiEff.getJob jid], Except.error (.notFoundError jid)))
    ∧ (∀ (deps : RetryDeps) (gtid jid : String) (job : Job),
      get_job_in_store deps.store jid = some job → job.status ≠ JobStatus.PENDING →
      retry_job deps gtid jid none =
        ([ApiEff.getJob jid], Except.error (.invalidStateError jid job.status)))
    ∧ (∀ (deps : RetryDeps) (gtid jid : String) (job : Job),
      get_job_in_store deps.store jid = some job → job.status = JobStatus.PENDING →
      deps.publish_fails = none →
      retry_job deps gtid jid none =
        ([ApiEff.getJob jid, ApiEff.getParameter "sqs/queue-url",
          ApiEff.sendMessage deps.queue_url
            { jobId := job.job_id, payloadHash := job.payload_hash, traceId := gtid }
            { jobId := job.job_id, traceId := gtid, jobType := job.job_type } true],
         Except.ok job))
    ∧ (∀ (deps : RetryDeps) (gtid jid : String) (trace_id : Option String),
      ∀ e ∈ (retry_job deps gtid jid trace_id).1, e.isStorageWrite = false) := by
  refine ⟨?_, ?_, ?_, ?_⟩
  · intro deps gtid jid h
    simp [retry_job, h]
  · intro deps gtid jid job h hst
    simp [retry_job, h, hst]
  · intro deps gtid jid job h hst hpub
    simp [retry_job, h, hst, hpub, msgBody, msgAttrs]
  · intro deps gtid jid trace_id e he
    unfold retry_job at he
    cases hg : get_job_in_store deps.store jid with
    | none =>
      rw [hg] at he
      simp at he
      simp [he, ApiEff.isStorageWrite]
    | some job =>
      rw [hg] at he
      by_cases hst : job.status = JobStatus.PENDING
      · simp [hst] at he
        cases hpub : deps.publish_fails with
        | none =>
          rw [hpub] at he
          simp at he
          rcases he with h1 | h1 | h1 <;> simp [h1, ApiEff.isStorageWrite]
        | some err =>
          rw [hpub] at he
          simp at he
          rcases he with h1 | h1 | h1 <;> simp [h1, ApiEff.isStorageWrite]
      · simp [hst] at he
        simp [he, ApiEff.isStorageWrite]

/-- Witness for the retry contract: a concrete PENDING job is re-published
with the freshly generated trace id and returned unchanged. -/
theorem retry_contract_witness :
    retry_job { store := [sampleJob .PENDING], queue_url := "qr", publish_fails := none }
        "fresh-trace" "job-1" none =
      ([ApiEff.getJob "job-1", ApiEff.getParameter "sqs/queue-url",
        ApiEff.sendMessage "qr"
          { jobId := "job-1", payloadHash := some "hash-1", traceId := "fresh-trace" }
          { jobId := "job-1", traceId := "fresh-trace", jobType := "process_document" } true],
       Except.ok (sampleJob .PENDING)) :=
  retry_contract.2.2.1
    { store := [sampleJob .PENDING], queue_url := "qr", publish_fails := none }
    "fresh-trace" "job-1" (sampleJob .PENDING) (by decide) rfl rfl

theorem getStatus_setStatus_self (s : Store) (id : String) (st : JobStatus) :
    getStatus (setStatus s id st) id = some st := by
  induction s with
  | nil => simp [setStatus, getStatus, List.find?]
  | cons p t ih =>
    by_cases h : p.1 = id
    · simp [setStatus, h, getStatus, List.find?]
    · simp only [setStatus, if_neg h]
      unfold getStatus
      rw [List.find?_cons_of_neg _ (by simp [h])]
      exact ih

/-- Every stored transition the retry loop performs, starting from a store
where the job is PROCESSING, is the PROCESSING to SUCCEEDED edge. -/
theorem run_attempts_transitions_aux (cfg : WorkerCfg) (work : Nat → Except String Dict)
    (job : Job) (qurl rh : String) :
    ∀ (remaining attempt : Nat) (s : Store),
      getStatus s job.job_id = some JobStatus.PROCESSING →
      ∀ t ∈ workerTransitions s (run_attempts cfg work job qurl rh attempt remaining).1,
        t = (JobStatus.PROCESSING, JobStatus.SUCCEEDED) := by
  intro remaining
  induction remaining with
  | zero =>
    intro attempt s hs t ht
    simp [run_attempts, workerTransitions] at ht
  | succ n ih =>
    intro attempt s hs t ht
    rw [run_attempts] at ht
    cases hw : work attempt with
    | ok res =>
      rw [hw] at ht
      simp [workerTransitions, hs] at ht
      exact ht
    | error e =>
      rw [hw] at ht
      by_cases hr : is_retryable_error e = false
      · simp [hr, workerTransitions] at ht
      · simp only [Bool.not_eq_false] at hr
        by_cases ha : attempt < cfg.max_retries - 1
        · simp [hr, ha, workerTransitions] at ht
          exact ih (attempt + 1) s hs t ht
        · simp [hr, ha, workerTransitions] at ht

/-- Every stored transition of the write-then-publish block on a fresh
PENDING job is in the amended edge set (only the compensation edge PENDING
to FAILED ever occurs; the initial put is a creation, not a transition). -/
theorem create_write_publish_transitions (deps : CreateDeps) (job : Job) (tid : String)
    (s : Store) (hs : getStatus s job.job_id = none)
    (hst : job.status = JobStatus.PENDING) :
    ∀ t ∈ apiTransitions s (create_write_publish deps job tid).1, t ∈ amendedEdges := by
  intro t ht
  unfold create_write_publish at ht
  cases hput : deps.put_fails with
  | some err =>
    rw [hput] at ht
    cases hc : deps.compensation_fails with
    | true => simp [create_compensate, hc, apiTransitions, hs] at ht
    | false => simp [create_compensate, hc, apiTransitions, hs] at ht
  | none =>
    rw [hput] at ht
    cases hpub : deps.publish_fails with
    | some err =>
      rw [hpub] at ht
      cases hc : deps.compensation_fails with
      | true =>
        simp [create_compensate, hc, apiTransitions, hs, getStatus_setStatus_self] at ht
      | false =>
        simp [create_compensate, hc, apiTransitions, hs, getStatus_setStatus_self, hst] at ht
        rw [ht]
        decide
    | none =>
      rw [hpub] at ht
      simp [apiTransitions, hs] at ht

/-- Every stored transition of the DLQ handler lands in the amended edge
set (any current status, terminal ones included, moves to FAILED_FINAL). -/
theorem dlq_transitions_aux (uf : String → Bool) :
    ∀ (records : List DlqBody) (s : Store),
      ∀ t ∈ dlqTransitions s (dlq_handler uf records).1, t ∈ amendedEdges := by
  intro records
  induction records with
  | nil =>
    intro s t ht
    simp [dlq_handler, dlqTransitions] at ht
  | cons r rest ih =>
    intro s t ht
    simp only [dlq_handler] at ht
    cases r with
    | unparseable =>
      simp only [dlq_record_step, List.nil_append] at ht
      exact ih s t ht
    | parsed jid err =>
      cases jid with
      | none =>
        simp only [dlq_record_step, List.nil_append] at ht
        exact ih s t ht
      | some j =>
        by_cases hj : j = ""
        · simp only [dlq_record_step, hj, if_pos rfl, List.nil_append] at ht
          exact ih s t ht
        · cases hf : uf j with
          | true =>
            simp only [dlq_record_step, if_neg hj, hf, if_true, List.cons_append,
              List.nil_append, dlqTransitions, if_false, Bool.false_eq_true] at ht
            exact ih s t ht
          | false =>
            simp only [dlq_record_step, if_neg hj, hf, List.cons_append, List.nil_append,
              if_false, Bool.false_eq_true, if_true, dlqTransitions] at ht
            cases hgs : getStatus s j with
            | some old =>
              rw [hgs] at ht
              rcases List.mem_cons.mp ht with h1 | h1
              · rw [h1]
                cases old <;> decide
              · exact ih _ t h1
            | none =>
              rw [hgs] at ht
              exact ih _ t ht

/-- C1 (amended): the per-operation stored status transitions of the code.
Submission: on a fresh generated id, the only transition create_job ever
performs is PENDING to FAILED (the compensation edge); the initial put is a
creation.  Worker: on a job read back from the store, process_job moves any
non-terminal status (PENDING, PROCESSING or FAILED) to PROCESSING and
PROCESSING to SUCCEEDED, and nothing else.  Retry: performs no status
write at all.  Finalizer: the DLQ handler moves any status - SUCCEEDED and
FAILED_FINAL included - to FAILED_FINAL, since its update is unconditional.
All transitions lie in `amendedEdges`; the claimed edge list fails because
of the three extra behaviours (see the counterexample). -/
theorem status_transitions_amended :
    (∀ (deps : CreateDeps) (g : Gen) (job_type priority : String) (params : Dict)
        (metadata : Option Dict) (idempotency_key trace_id : Option String) (s : Store),
      getStatus s g.gen_job_id = none →
      ∀ t ∈ apiTransitions s
          (create_job deps g job_type priority params metadata idempotency_key trace_id).1,
        t ∈ amendedEdges)
    ∧ (∀ (cfg : WorkerCfg) (upf : Bool) (work : Nat → Except String Dict) (job : Job)
        (rh qurl : String) (s : Store),
      getStatus s job.job_id = some job.status →
      ∀ t ∈ workerTransitions s (process_job cfg upf work job rh qurl).1,
        t ∈ amendedEdges)
    ∧ (∀ (deps : RetryDeps) (gtid jid : String) (trace_id : Option String) (s : Store),
      apiTransitions s (retry_job deps gtid jid trace_id).1 = [])
    ∧ (∀ (uf : String → Bool) (records : List DlqBody) (s : Store),
      ∀ t ∈ dlqTransitions s (dlq_handler uf records).1, t ∈ amendedEdges) := by
  refine ⟨?_, ?_, ?_, dlq_transitions_aux⟩
  · intro deps g job_type priority params metadata idempotency_key trace_id s hs t ht
    by_cases hp : params = []
    · simp [create_job, hp, apiTransitions] at ht
    · cases hik : idempotency_key with
      | none =>
        simp only [create_job, if_neg hp, hik] at ht
        exact create_write_publish_transitions deps _ _ s hs rfl t ht
      | some k =>
        by_cases hk : k = ""
        · simp only [create_job, if_neg hp, hik, hk, if_pos rfl] at ht
          exact create_write_publish_transitions deps _ _ s hs rfl t ht
        · cases hlook : lookup_by_idempotency_key deps.store k with
          | some existing =>
            simp [create_job, hp, hik, hk, hlook, apiTransitions] at ht
          | none =>
            simp only [create_job, if_neg hp, hik, if_neg hk, hlook] at ht
            simp only [apiTransitions] at ht
            exact create_write_publish_transitions deps _ _ s hs rfl t ht
  · intro cfg upf work job rh qurl s hs t ht
    by_cases hterm : job.status = JobStatus.SUCCEEDED ∨ job.status = JobStatus.FAILED_FINAL
    · unfold process_job at ht
      rw [if_pos hterm] at ht
      simp [workerTransitions] at ht
    · unfold process_job at ht
      rw [if_neg hterm] at ht
      cases upf with
      | true => simp [workerTransitions] at ht
      | false =>
        simp only [if_false, Bool.false_eq_true, workerTransitions, hs, if_true] at ht
        rcases List.mem_cons.mp ht with h1 | h1
        · rw [h1]
          cases hstat : job.status <;> simp [hstat] at hterm ⊢ <;> decide
        · have := run_attempts_transitions_aux cfg work job qurl rh cfg.max_retries 0
            (setStatus s job.job_id .PROCESSING) (getStatus_setStatus_self s _ _) t h1
          rw [this]
          decide
  · intro deps gtid jid trace_id s
    unfold retry_job
    cases hg : get_job_in_store deps.store jid with
    | none => simp [apiTransitions]
    | some job =>
      by_cases hst : job.status = JobStatus.PENDING
      · simp only [hst]
        cases hpub : deps.publish_fails with
        | none => simp [apiTransitions]
        | some err => simp [apiTransitions]
      · simp [hst, apiTransitions]

/-- Witness for the amended transition theorem: a concrete create_job run
whose publish fails performs the compensation transition PENDING to
FAILED, which the amended edge set contains. -/
theorem status_transitions_amended_witness :
    (JobStatus.PENDING, JobStatus.FAILED) ∈ amendedEdges :=
  status_transitions_amended.1
    { store := [], queue_url := "q", put_fails := none,
      publish_fails := some "boom", compensation_fails := false }
    { gen_job_id := "job-9", gen_trace_id := "t9", now := 0, payload_hash := "h9" }
    "process_document" "normal" [("a", "b")] none none none [] (by decide)
    (JobStatus.PENDING, JobStatus.FAILED) (by decide)

/-- Counterexample to C1 as stated: a dead-letter message for a job whose
stored status is SUCCEEDED.  The DLQ handler updates unconditionally, so
the run performs the stored transition SUCCEEDED to FAILED_FINAL - an edge
outside the claimed list, and one that moves a job out of SUCCEEDED. -/
theorem status_transitions_counterexample :
    dlqTransitions [("j1", JobStatus.SUCCEEDED)]
        (dlq_handler (fun _ => false) [DlqBody.parsed (some "j1") (some "boom")]).1 =
      [(JobStatus.SUCCEEDED, JobStatus.FAILED_FINAL)]
    ∧ (JobStatus.SUCCEEDED, JobStatus.FAILED_FINAL) ∉ claimedEdges := by
  refine ⟨rfl, ?_⟩
  decide

end AsyncJobTicket
